import Mathlib

/-!
Verification of the response-to-domain-object mapping layer of the
`alma-api-client` library (UCLALibrary/alma-api-client), as specified in
`spec.md`, against a shallow embedding of the Python sources:

* `src/alma_api_client/models/api.py` (`APIResponse`, `APIError`),
* `src/alma_api_client/models/marc_records.py` (`AlmaMARCRecord`, `BibRecord`),
* `src/alma_api_client/models/sets.py` (`Set`, `SetMember`, `SetContentType`),
* `src/alma_api_client/clients/alma_api_client.py`
  (`AlmaAPIClient.create_item`, `get_set`, `wait_for_completion`).

Modelling conventions:

* Python values flowing through `api_data` are embedded as `PyVal`
  (strings, byte strings, integers, booleans, `None`, lists, dicts).
  Lists and dicts are separate mutual inductives (`PyList`, `PyDict`) so that
  every function is structurally recursive and kernel-computable.
* Python operations that can raise (`dict.get` on a non-dict, `len` on a
  non-sized value, iteration over a non-iterable, `setattr` on a value not
  declared in `__slots__`, `list[0]` on an empty list, xml parse failures)
  return `Except PyErr`.  The distinct exception classes the sources can
  raise are the constructors of `PyErr`.
* External collaborators are treated as the spec directs: the JSON decoder
  of `requests.Response.json` and the byte-level XML parser used by
  `xmltodict.parse` in `APIError` are explicit function parameters
  (`parse_json`, `parse_xml_dict`); the HTTP transport is a function from
  request parameters to responses.  Well-formed XML documents are
  represented by their parse trees (`XTree`); `serializeXml` is the model
  of `xml.etree.ElementTree.tostring` (UTF-8, no XML declaration), so
  byte-for-byte statements compare `serializeXml` outputs.
-/

/-! ## Python value model -/

mutual
inductive PyVal where
  | str (s : String)
  | bytes (b : String)
  | int (n : Int)
  | bool (b : Bool)
  | pynone
  | list (items : PyList)
  | dict (entries : PyDict)
inductive PyList where
  | nil
  | cons (hd : PyVal) (tl : PyList)
inductive PyDict where
  | nil
  | cons (key : String) (val : PyVal) (tl : PyDict)
end

/-- Build a `PyList` from a Lean list. -/
def pyl : List PyVal → PyList
  | [] => .nil
  | v :: vs => .cons v (pyl vs)

/-- Build a `PyDict` from a Lean association list (keys in insertion order). -/
def pyd : List (String × PyVal) → PyDict
  | [] => .nil
  | kv :: es => .cons kv.1 kv.2 (pyd es)

def PyList.toList : PyList → List PyVal
  | .nil => []
  | .cons v tl => v :: tl.toList

def PyDict.toList : PyDict → List (String × PyVal)
  | .nil => []
  | .cons k v tl => (k, v) :: tl.toList

def PyList.length (l : PyList) : Nat := l.toList.length

def PyDict.length (d : PyDict) : Nat := d.toList.length

/-- First binding of `k`, like lookup in a Python dict built by insertion. -/
def PyDict.lookup : PyDict → String → Option PyVal
  | .nil, _ => none
  | .cons k v tl, key => if k = key then some v else tl.lookup key

/-- Keys of a dict in insertion order (what Python iteration over a dict yields). -/
def PyDict.keys : PyDict → List String
  | .nil => []
  | .cons k _ tl => k :: tl.keys

/-- The distinguishable error kinds raised by the embedded sources.
`apiError` is the `APIError` exception class of `models/api.py`; its payload
is defined below. -/
structure APIErrorData where
  api_data : PyVal
  message : String
  status_code : Int

inductive PyErr where
  | attributeError
  | typeError
  | indexError
  | valueError
  | expatError
  | apiError (e : APIErrorData)

/-- Python truthiness of an embedded value (`bool(v)`). -/
def py_truthy : PyVal → Bool
  | .str s => s ≠ ""
  | .bytes b => b ≠ ""
  | .int n => n ≠ 0
  | .bool b => b
  | .pynone => false
  | .list items => items.length ≠ 0
  | .dict entries => entries.length ≠ 0

/-- Python `v.get(k, default)`: only dicts have `.get`; any other receiver
raises `AttributeError`. -/
def py_get (v : PyVal) (k : String) (default : PyVal) : Except PyErr PyVal :=
  match v with
  | .dict entries => .ok ((entries.lookup k).getD default)
  | _ => .error .attributeError

/-- Python `len(v)`: length of sequences/mappings, `TypeError` otherwise. -/
def py_len (v : PyVal) : Except PyErr Int :=
  match v with
  | .str s => .ok s.length
  | .bytes b => .ok b.length
  | .list items => .ok items.length
  | .dict entries => .ok entries.length
  | _ => .error .typeError

/-- Python iteration `for x in v`: list elements, dict keys, string
characters; `TypeError` for non-iterables.  (Byte strings iterate as ints.) -/
def py_iter (v : PyVal) : Except PyErr (List PyVal) :=
  match v with
  | .list items => .ok items.toList
  | .dict entries => .ok (entries.keys.map .str)
  | .str s => .ok (s.toList.map (fun c => .str (String.mk [c])))
  | .bytes b => .ok (b.toList.map (fun c => .int c.toNat))
  | _ => .error .typeError

/-- Python `int(m) < v` where `m` is an int: defined for ints and bools,
`TypeError` otherwise. -/
def py_lt_int (m : Int) (v : PyVal) : Except PyErr Bool :=
  match v with
  | .int n => .ok (decide (m < n))
  | .bool b => .ok (decide (m < (if b then (1 : Int) else 0)))
  | _ => .error .typeError

/-! ## Raw transport responses and the Response Envelope (`models/api.py`) -/

/-- A raw `requests.Response`: status code, headers (an insertion-ordered
case-insensitive mapping) and the body bytes (as a byte string). -/
structure Resp where
  status_code : Int
  headers : List (String × String)
  body : String

/-- Model of `requests.Response.ok`: true iff the status is below 400. -/
def resp_ok (r : Resp) : Bool := decide (r.status_code < 400)

/-- ASCII lower-casing of one character (kernel-computable replacement for
`Char.toLower`, which is all `CaseInsensitiveDict` needs for header names). -/
def lower_char (c : Char) : Char :=
  if 'A' ≤ c ∧ c ≤ 'Z' then Char.ofNat (c.toNat + 32) else c

/-- Case-insensitive string comparison, as used for header-name lookup. -/
def ci_eq (a b : String) : Bool :=
  a.toList.map lower_char == b.toList.map lower_char

/-- Lookup in a `requests.structures.CaseInsensitiveDict` with a default:
key comparison ignores ASCII case. -/
def header_get (hs : List (String × String)) (k default : String) : String :=
  match hs.find? (fun kv => ci_eq kv.1 k) with
  | some kv => kv.2
  | none => default

/-- Characters the pattern piece `[a-z]` accepts. -/
def lower_alpha (c : Char) : Bool := decide ('a' ≤ c) && decide (c ≤ 'z')

def charset_lit : List Char := (";charset=UTF-8").toList

def application_lit : List Char := ("application/").toList

/-- Greedy tail of `([a-z].*);charset=UTF-8` at a fixed position: the longest
`p` (not containing a newline, which `.` does not match) such that the input
is `p ++ ";charset=UTF-8" ++ rest`.  This is the backtracking behaviour of the
greedy `.*` in `re.search(r"application/([a-z].*);charset=UTF-8", ...)`. -/
def greedy_group : List Char → Option (List Char)
  | [] => none
  | c :: rest =>
    if c = '\n' then none
    else
      match greedy_group rest with
      | some p => some (c :: p)
      | none => if charset_lit.isPrefixOf (c :: rest) then some [] else none

/-- Attempt the whole pattern at one start position. -/
def match_ct_at (cs : List Char) : Option (List Char) :=
  if application_lit.isPrefixOf cs then
    match cs.drop 12 with
    | [] => none
    | c :: rest =>
      if lower_alpha c then
        match greedy_group rest with
        | some p => some (c :: p)
        | none => none
      else none
  else none

/-- Model of `re.search`: leftmost start position at which the pattern matches. -/
def search_ct : List Char → Option (List Char)
  | [] => none
  | c :: rest =>
    match match_ct_at (c :: rest) with
    | some g => some g
    | none => search_ct rest

/-- Model of `APIResponse.content_type`: run
`re.search(r"application/([a-z].*);charset=UTF-8", headers.get("Content-Type", ""))`
and return group 1, or `""` when there is no match. -/
def content_type (hs : List (String × String)) : String :=
  match search_ct (header_get hs "Content-Type" "").toList with
  | some g => String.mk g
  | none => ""

/-- Model of `APIResponse.__init__`: decode the body into `api_data`.  `parse_json` is
the external JSON decoder behind `requests.Response.json()` (`none` models a
`JSONDecodeError`, which the `except` clause turns into an empty dict).  For
every non-JSON content kind the body bytes are stored under `"content"`.
Construction is total: it never raises. -/
def api_data_of (parse_json : String → Option PyVal) (r : Resp) : PyVal :=
  if content_type r.headers = "json" then
    match parse_json r.body with
    | some v => v
    | none => .dict .nil
  else
    .dict (pyd [("content", .bytes r.body)])

/-- Model of `APIError.__init__`: run base construction, record the caller-supplied
message and, when the content kind is `"xml"`, re-parse the raw body with
`xmltodict.parse` (the external parser `parse_xml_dict`; a parse failure
such as `xml.parsers.expat.ExpatError` on an empty body propagates) and
replace `api_data` with the subtree under `"web_service_result"`. -/
def api_error_init (parse_json : String → Option PyVal)
    (parse_xml_dict : String → Except PyErr PyVal)
    (r : Resp) (message : String) : Except PyErr APIErrorData :=
  let base := api_data_of parse_json r
  if content_type r.headers = "xml" then
    match py_get base "content" (.bytes "") with
    | .error e => .error e
    | .ok c =>
      match c with
      | .bytes s =>
        match parse_xml_dict s with
        | .error e => .error e
        | .ok parsed =>
          match py_get parsed "web_service_result" (.dict .nil) with
          | .error e => .error e
          | .ok d => .ok ⟨d, message, r.status_code⟩
      | .str s =>
        match parse_xml_dict s with
        | .error e => .error e
        | .ok parsed =>
          match py_get parsed "web_service_result" (.dict .nil) with
          | .error e => .error e
          | .ok d => .ok ⟨d, message, r.status_code⟩
      | _ => .error .typeError
  else
    .ok ⟨base, message, r.status_code⟩

/-- The list comprehension
`[error_info.get("errorMessage", "") for error_info in errors]`: left to
right, aborting at the first raising element. -/
def map_error_entries : List PyVal → Except PyErr (List PyVal)
  | [] => .ok []
  | v :: tl =>
    match py_get v "errorMessage" (.str "") with
    | .error e => .error e
    | .ok m =>
      match map_error_entries tl with
      | .error e => .error e
      | .ok ms => .ok (m :: ms)

/-- Model of `APIError.error_messages`: look up `errorList` (default empty dict), then
`error` (no default, hence `None`); a list is mapped entry-wise to
`errorMessage` (default `""`), a dict yields a one-element list, anything
else yields `[]`.  `.get` on a non-dict receiver raises `AttributeError`. -/
def error_messages (api_data : PyVal) : Except PyErr (List PyVal) :=
  match py_get api_data "errorList" (.dict .nil) with
  | .error e => .error e
  | .ok el =>
    match py_get el "error" .pynone with
    | .error e => .error e
    | .ok errs =>
      match errs with
      | .list items => map_error_entries items.toList
      | .dict entries =>
        match py_get (.dict entries) "errorMessage" (.str "") with
        | .error e => .error e
        | .ok m => .ok [m]
      | _ => .ok []

/-- Model of `AlmaAPIClient.create_item` applied to the transport's response: on a
successful status wrap the response in an `APIResponse` (here represented by
its decoded `api_data`); otherwise raise
`APIError(response, "Error creating item.")`. -/
def create_item (parse_json : String → Option PyVal)
    (parse_xml_dict : String → Except PyErr PyVal)
    (r : Resp) : Except PyErr PyVal :=
  if resp_ok r then
    .ok (api_data_of parse_json r)
  else
    match api_error_init parse_json parse_xml_dict r "Error creating item." with
    | .ok st => .error (.apiError st)
    | .error e => .error e


/-! ## XML trees

Well-formed XML documents are represented by their element trees: a tag
name, an attribute list in document order, and a mixed list of child
elements and text nodes.  `serializeXml` models
`xml.etree.ElementTree.tostring(..., encoding="utf8", method="xml",
xml_declaration=False)`; trees are kept in ElementTree canonical form
(no empty text nodes), so `ET.fromstring ∘ ET.tostring` is the identity
and re-parsing a serialized tree is modelled by the tree itself. -/

mutual
inductive XTree where
  | elem (name : String) (attrs : List (String × String)) (children : XList)
  | text (s : String)
inductive XList where
  | nil
  | cons (hd : XTree) (tl : XList)
end

/-- Build an `XList` from a Lean list. -/
def xl : List XTree → XList
  | [] => .nil
  | t :: ts => .cons t (xl ts)

def XList.toList : XList → List XTree
  | .nil => []
  | .cons t tl => t :: tl.toList

def XList.append : XList → XList → XList
  | .nil, ys => ys
  | .cons t tl, ys => .cons t (tl.append ys)

/-- Append one extra child to an element (`Element.append`). -/
def XTree.push_child (t : XTree) (c : XTree) : XTree :=
  match t with
  | .elem n a cs => .elem n a (cs.append (.cons c .nil))
  | .text s => .text s

/-- ElementTree text escaping (`_escape_cdata`): `&`, `<`, `>`. -/
def esc_text (s : String) : String :=
  String.mk (s.toList.flatMap (fun c =>
    if c = '&' then ("&amp;").toList
    else if c = '<' then ("&lt;").toList
    else if c = '>' then ("&gt;").toList
    else [c]))

/-- ElementTree attribute-value escaping (`_escape_attrib`). -/
def esc_attrib (s : String) : String :=
  String.mk (s.toList.flatMap (fun c =>
    if c = '&' then ("&amp;").toList
    else if c = '<' then ("&lt;").toList
    else if c = '>' then ("&gt;").toList
    else if c = '"' then ("&quot;").toList
    else if c = '\r' then ("&#13;").toList
    else if c = '\n' then ("&#10;").toList
    else if c = '\t' then ("&#09;").toList
    else [c]))

def render_attrs (attrs : List (String × String)) : String :=
  attrs.foldl (fun acc kv => acc ++ " " ++ kv.1 ++ "=\"" ++ esc_attrib kv.2 ++ "\"") ""

mutual
def serializeXml : XTree → String
  | .text s => esc_text s
  | .elem n attrs cs =>
    match cs with
    | .nil => "<" ++ n ++ render_attrs attrs ++ " />"
    | .cons c tl =>
      "<" ++ n ++ render_attrs attrs ++ ">" ++ serializeList (.cons c tl) ++ "</" ++ n ++ ">"
def serializeList : XList → String
  | .nil => ""
  | .cons t tl => serializeXml t ++ serializeList tl
end

mutual
/-- Character data of a node and all of its descendants, in document order
(what a SAX `characters` handler accumulates). -/
def deep_text : XTree → String
  | .text s => s
  | .elem _ _ cs => deep_text_list cs
def deep_text_list : XList → String
  | .nil => ""
  | .cons t tl => deep_text t ++ deep_text_list tl
end

/-- Character data directly inside an element (the expat-level `cdata` that
`xmltodict` associates with the element itself). -/
def child_text : XList → String
  | .nil => ""
  | .cons (.text s) tl => s ++ child_text tl
  | .cons (.elem _ _ _) tl => child_text tl

/-- Whitespace per Python `str.strip()` (the characters relevant here). -/
def is_py_space (c : Char) : Bool :=
  c = ' ' || c = '\t' || c = '\n' || c = '\r' || c = '\x0b' || c = '\x0c'

/-- Python `str.strip()` (kernel-computable). -/
def py_strip (s : String) : String :=
  String.mk (((s.toList.dropWhile is_py_space).reverse.dropWhile is_py_space).reverse)

/-! ## Model of `xmltodict.parse` on a parsed tree

`xmltodict.parse` (defaults: `attr_prefix="@"`, `cdata_key="#text"`,
`strip_whitespace=True`) converts an element to: its text (stripped) if it
has neither attributes nor child elements (`None` when that text is empty);
otherwise a dict of `@`-prefixed attributes, child elements grouped by tag
name in first-appearance order (repeated names collected into a list), and
a final `#text` entry when stripped text is present. -/

/-- Insert one child entry, grouping repeated tag names into a list. -/
def group_ins (acc : List (String × PyVal)) (k : String) (v : PyVal) :
    List (String × PyVal) :=
  match acc with
  | [] => [(k, v)]
  | (k', v') :: tl =>
    if k' = k then
      match v' with
      | .list items => (k, .list (pyl (items.toList ++ [v]))) :: tl
      | _ => (k, .list (pyl [v', v])) :: tl
    else (k', v') :: group_ins tl k v

def group_entries (es : List (String × PyVal)) : List (String × PyVal) :=
  es.foldl (fun acc kv => group_ins acc kv.1 kv.2) []

/-- Assemble the `xmltodict` value of one element from its attribute list,
its already-converted child entries and its raw character data. -/
def mk_elem_val (attrs : List (String × String)) (subs0 : List (String × PyVal))
    (rawtext : String) : PyVal :=
  let atts := attrs.map (fun kv => ("@" ++ kv.1, PyVal.str kv.2))
  let subs := group_entries subs0
  let txt := py_strip rawtext
  if atts.isEmpty && subs.isEmpty then
    (if txt = "" then .pynone else .str txt)
  else
    .dict (pyd (atts ++ subs ++ (if txt = "" then [] else [("#text", PyVal.str txt)])))

mutual
def x2d_entry : XTree → List (String × PyVal)
  | .text _ => []
  | .elem n attrs cs => [(n, mk_elem_val attrs (x2d_entries cs) (child_text cs))]
def x2d_entries : XList → List (String × PyVal)
  | .nil => []
  | .cons t tl => x2d_entry t ++ x2d_entries tl
end

/-- Model of `xmltodict.parse` of a whole well-formed document: a single-entry dict
keyed by the root tag. -/
def xmltodict_parse (t : XTree) : PyVal :=
  match t with
  | .elem n attrs cs => .dict (pyd [(n, mk_elem_val attrs (x2d_entries cs) (child_text cs))])
  | .text _ => .dict .nil

/-! ## Model of `xmltodict.unparse` composed with `ET.fromstring`

`AlmaMARCRecord.alma_xml` serializes a dict with `xmltodict.unparse` and
immediately re-parses the result with `ET.fromstring`; the composition is
modelled directly at tree level.  Scalar values are rendered with `str()`;
`None` yields an empty element; `@`-prefixed keys yield attributes, `#text`
yields character data, and a list value yields repeated sibling elements. -/

/-- Python `str()` of the scalar values that can appear here. -/
def py_str_of : PyVal → String
  | .str s => s
  | .int n => toString n
  | .bool b => if b then "True" else "False"
  | .pynone => "None"
  | .bytes b => "b" ++ String.mk [Char.ofNat 39] ++ b ++ String.mk [Char.ofNat 39]
  | .list _ => ""
  | .dict _ => ""

def starts_with_at (k : String) : Bool :=
  match k.toList with
  | '@' :: _ => true
  | _ => false

def drop_first_char (k : String) : String :=
  match k.toList with
  | [] => ""
  | _ :: tl => String.mk tl

/-- Attributes contributed by `@`-prefixed keys, in order. -/
def unp_attrs : PyDict → List (String × String)
  | .nil => []
  | .cons k v tl =>
    if starts_with_at k then (drop_first_char k, py_str_of v) :: unp_attrs tl
    else unp_attrs tl

/-- The `#text` entry, if any. -/
def unp_text (es : PyDict) : Option String := (es.lookup "#text").map py_str_of

def text_children (s : String) : XList :=
  if s = "" then .nil else .cons (.text s) .nil

mutual
def unp_val (name : String) : PyVal → XList
  | .pynone => .cons (.elem name [] .nil) .nil
  | .list items => unp_list name items
  | .dict es =>
    .cons (.elem name (unp_attrs es)
      ((match unp_text es with
        | some t => text_children t
        | none => .nil).append (unp_entries es))) .nil
  | .str s => .cons (.elem name [] (text_children s)) .nil
  | .int n => .cons (.elem name [] (text_children (py_str_of (.int n)))) .nil
  | .bool b => .cons (.elem name [] (text_children (py_str_of (.bool b)))) .nil
  | .bytes b => .cons (.elem name [] (text_children (py_str_of (.bytes b)))) .nil
def unp_list (name : String) : PyList → XList
  | .nil => .nil
  | .cons v tl => (unp_val name v).append (unp_list name tl)
def unp_entries : PyDict → XList
  | .nil => .nil
  | .cons k v tl =>
    if starts_with_at k || k = "#text" then unp_entries tl
    else (unp_val k v).append (unp_entries tl)
end

/-- Model of `ET.fromstring(xmltodict.unparse(alma_data))` for the single-root dicts
built in `alma_xml` (root tag plus its value). -/
def alma_unparse (root : String) (v : PyVal) : XTree :=
  match unp_val root v with
  | .cons t _ => t
  | .nil => .elem root [] .nil

/-! ## MARC records (`models/marc_records.py` with the `pymarc` codec)

The `pymarc` record structure is embedded as a leader plus an ordered field
list; `parse_xml_to_array` is its MARCXML SAX decoder (collecting every
`record` element of the given document) and `record_to_xml_node` its
MARCXML encoder. -/

inductive MarcField where
  | control (tag : String) (value : String)
  | data (tag ind1 ind2 : String) (subfields : List (String × String))

structure MarcRecord where
  leader : String
  fields : List MarcField

/-- Attribute lookup on an element (SAX attribute access, `""` if absent). -/
def attr_get (attrs : List (String × String)) (k : String) : String :=
  match attrs.find? (fun kv => kv.1 = k) with
  | some kv => kv.2
  | none => ""

/-- Subfields of a `datafield` element: `code` attribute and character data
of each `subfield` child. -/
def subfields_of : XList → List (String × String)
  | .nil => []
  | .cons (.elem n a scs) tl =>
    if n = "subfield" then (attr_get a "code", deep_text_list scs) :: subfields_of tl
    else subfields_of tl
  | .cons (.text _) tl => subfields_of tl

/-- Walk the children of a `record` element in document order, keeping the
last `leader` seen and accumulating `controlfield`/`datafield` entries. -/
def marc_walk (leader : String) (fields : List MarcField) : XList → String × List MarcField
  | .nil => (leader, fields)
  | .cons (.elem n a cs) tl =>
    if n = "leader" then marc_walk (deep_text_list cs) fields tl
    else if n = "controlfield" then
      marc_walk leader (fields ++ [.control (attr_get a "tag") (deep_text_list cs)]) tl
    else if n = "datafield" then
      marc_walk leader
        (fields ++ [.data (attr_get a "tag") (attr_get a "ind1") (attr_get a "ind2")
          (subfields_of cs)]) tl
    else marc_walk leader fields tl
  | .cons (.text _) tl => marc_walk leader fields tl

def marc_of_children (cs : XList) : MarcRecord :=
  let p := marc_walk "" [] cs
  ⟨p.1, p.2⟩

mutual
/-- Records contributed by a node: each `record` element found (at any
depth) becomes one decoded MARC record. -/
def collect_records : XTree → List MarcRecord
  | .text _ => []
  | .elem n _ cs =>
    if n = "record" then [marc_of_children cs] else collect_records_list cs
def collect_records_list : XList → List MarcRecord
  | .nil => []
  | .cons t tl => collect_records t ++ collect_records_list tl
end

/-- Model of `pymarc.parse_xml_to_array` applied to a (serialized) tree. -/
def parse_xml_to_array (t : XTree) : List MarcRecord := collect_records t

/-- One encoded field (`pymarc.record_to_xml_node` body).  ElementTree keeps
no text node for an empty string, hence `text_children`. -/
def field_to_xml : MarcField → XTree
  | .control t v => .elem "controlfield" [("tag", t)] (text_children v)
  | .data t i1 i2 sfs =>
    .elem "datafield" [("tag", t), ("ind1", i1), ("ind2", i2)]
      (xl (sfs.map (fun cv => .elem "subfield" [("code", cv.1)] (text_children cv.2))))

/-- Model of `pymarc.record_to_xml_node` (namespace-free form): a `record` element
holding the leader followed by the fields in order. -/
def record_to_xml_node (m : MarcRecord) : XTree :=
  .elem "record" [] (xl (.elem "leader" [] (text_children m.leader) :: m.fields.map field_to_xml))

/-- First direct child element with the given tag (`Element.find`). -/
def find_child : XList → String → Option XTree
  | .nil, _ => none
  | .cons (.elem n a cs) tl, name =>
    if n = name then some (.elem n a cs) else find_child tl name
  | .cons (.text _) tl, name => find_child tl name

def XTree.find (t : XTree) (name : String) : Option XTree :=
  match t with
  | .elem _ _ cs => find_child cs name
  | .text _ => none

def count_elems : XList → Nat
  | .nil => 0
  | .cons (.elem _ _ _) tl => 1 + count_elems tl
  | .cons (.text _) tl => count_elems tl

/-- Number of direct subelements (`len(element)`), which is what the Python
truthiness test `if record:` checks on an `Element`. -/
def elem_child_count (t : XTree) : Nat :=
  match t with
  | .elem _ _ cs => count_elems cs
  | .text _ => 0

/-- Model of `AlmaMARCRecord._get_pymarc_record_from_xml`: find the direct child
element named `record`; when the found element is truthy (has at least one
subelement), re-serialize only that subtree (no XML declaration; the
serialize/re-parse round trip is the identity on trees) and decode it with
`parse_xml_to_array`, taking index `[0]` — an `IndexError` if the decoder
found no record.  A missing `record` child — and, through the Python
truthiness of `Element`, a childless one — yields `None`. -/
def get_pymarc_record_from_xml (root : XTree) : Except PyErr (Option MarcRecord) :=
  match root.find "record" with
  | some rec =>
    if elem_child_count rec ≠ 0 then
      match parse_xml_to_array rec with
      | [] => .error .indexError
      | m :: _ => .ok (some m)
    else .ok none
  | none => .ok none

/-- State of an `AlmaMARCRecord` (and subclasses): the record-type tag, the
subclass `__slots__` list, the values assigned to slot attributes, the full
wrapper attribute map kept for read-only passthrough, and the decoded MARC
record. -/
structure AlmaMARCRecordState where
  record_type : String
  slots : List String
  slot_vals : List (String × PyVal)
  all_attributes : List (String × PyVal)
  marc_record : Option MarcRecord

/-- Model of `AlmaMARCRecord._set_attributes`: convert the whole wrapper to a dict
with `xmltodict.parse`; require exactly one top-level key (else
`ValueError`), take it as the record type; iterate its value's entries
(`.items()` raises `AttributeError` when the value is not a dict), keeping
those whose key is in `__slots__` as writable attributes and the whole map
for passthrough. -/
def set_attributes (slots : List String) (wrapper : XTree) :
    Except PyErr (String × List (String × PyVal) × List (String × PyVal)) :=
  match xmltodict_parse wrapper with
  | .dict (.cons rt v .nil) =>
    match v with
    | .dict es =>
      let entries := es.toList
      .ok (rt, entries.filter (fun kv => slots.contains kv.1), entries)
    | _ => .error .attributeError
  | _ => .error .valueError

/-- Model of `AlmaMARCRecord._create_from_api_response` on the parsed wrapper XML:
decode the embedded MARC record, then extract the wrapper attributes. -/
def create_from_wrapper (slots : List String) (wrapper : XTree) :
    Except PyErr AlmaMARCRecordState :=
  match get_pymarc_record_from_xml wrapper with
  | .error e => .error e
  | .ok m =>
    match set_attributes slots wrapper with
    | .error e => .error e
    | .ok (rt, sv, all) => .ok ⟨rt, slots, sv, all, m⟩

/-- Model of `BibRecord.__slots__`. -/
def bib_slots : List String :=
  ["brief_level", "cataloging_level", "record_format", "suppress_from_publishing"]

/-- Model of `BibRecord.__init__`: base-class construction from the response, after
which the subclass unconditionally overwrites `_record_type` with `"bib"`. -/
def bib_record_create (wrapper : XTree) : Except PyErr AlmaMARCRecordState :=
  match create_from_wrapper bib_slots wrapper with
  | .error e => .error e
  | .ok st => .ok { st with record_type := "bib" }

/-- Model of `getattr(self, key, "")` for a slot attribute. -/
def get_slot (st : AlmaMARCRecordState) (k : String) : PyVal :=
  match st.slot_vals.find? (fun kv => kv.1 = k) with
  | some kv => kv.2
  | none => .str ""

def assoc_set : List (String × PyVal) → String → PyVal → List (String × PyVal)
  | [], k, v => [(k, v)]
  | (k', v') :: tl, k, v =>
    if k' = k then (k, v) :: tl else (k', v') :: assoc_set tl k v

/-- Model of `setattr` on a `__slots__` class: assigning a name not declared in
`__slots__` raises `AttributeError`. -/
def set_slot (st : AlmaMARCRecordState) (k : String) (v : PyVal) :
    Except PyErr AlmaMARCRecordState :=
  if st.slots.contains k then
    .ok { st with slot_vals := assoc_set st.slot_vals k v }
  else .error .attributeError

/-- Model of `AlmaMARCRecord.alma_xml`, up to final serialization: build a dict from
the current `__slots__` values (empty string for unset attributes), unparse
it with the record type as root, encode the MARC record with
`record_to_xml_node` (encoding `None` raises `AttributeError` inside
pymarc) and append it as the last child. -/
def alma_xml_tree (st : AlmaMARCRecordState) : Except PyErr XTree :=
  let attributes := PyVal.dict (pyd (st.slots.map (fun k => (k, get_slot st k))))
  let xml_element := alma_unparse st.record_type attributes
  match st.marc_record with
  | none => .error .attributeError
  | some m => .ok (xml_element.push_child (record_to_xml_node m))

/-- Model of `AlmaMARCRecord.alma_xml`: the bytes sent to the Alma API
(`ET.tostring(..., xml_declaration=False)`). -/
def alma_xml (st : AlmaMARCRecordState) : Except PyErr String :=
  match alma_xml_tree st with
  | .error e => .error e
  | .ok t => .ok (serializeXml t)

/-! ## Sets (`models/sets.py`) and `AlmaAPIClient.get_set` -/

/-- Model of `SetContentType`: the closed enumeration derived from the vendor code
table, keyed by its description strings. -/
inductive SetContentType where
  | AUTHORITY_MMS | BIB_MMS | BIB_MMS_DISCOVERY | COURSE | FILE | HOLDING
  | IEC | IED | IEE | IE | IEPA | IEP | IER | ITEM | PO_LINE | PORTFOLIOS
  | READING_LIST_CITATION | READING_LIST | REMOTE_REPRESENTATION
  | REPRESENTATION | RESEARCHERS | USER | VENDOR

/-- Model of `SetContentType(desc)`: value lookup in the enum; no match (including a
non-string argument such as `None`) raises `ValueError`. -/
def set_content_type_of (v : PyVal) : Except PyErr SetContentType :=
  match v with
  | .str s =>
    if s = "Authorities" then .ok .AUTHORITY_MMS
    else if s = "All Titles" then .ok .BIB_MMS
    else if s = "All Discovery Titles" then .ok .BIB_MMS_DISCOVERY
    else if s = "Courses" then .ok .COURSE
    else if s = "Digital files" then .ok .FILE
    else if s = "Physical holdings" then .ok .HOLDING
    else if s = "Collections" then .ok .IEC
    else if s = "Digital titles" then .ok .IED
    else if s = "Electronic titles" then .ok .IEE
    else if s = "Inventory titles" then .ok .IE
    else if s = "Electronic collections" then .ok .IEPA
    else if s = "Physical titles" then .ok .IEP
    else if s = "Research assets" then .ok .IER
    else if s = "Physical items" then .ok .ITEM
    else if s = "Order lines" then .ok .PO_LINE
    else if s = "Electronic portfolios" then .ok .PORTFOLIOS
    else if s = "Citations" then .ok .READING_LIST_CITATION
    else if s = "Reading lists" then .ok .READING_LIST
    else if s = "Digital remote representations" then .ok .REMOTE_REPRESENTATION
    else if s = "Digital representations" then .ok .REPRESENTATION
    else if s = "Researchers" then .ok .RESEARCHERS
    else if s = "User" then .ok .USER
    else if s = "Vendor" then .ok .VENDOR
    else .error .valueError
  | _ => .error .valueError

/-- A constructed `SetMember`: `fields = none` models the object produced
from falsy `member_data`, on which `_create_from_member_data` never ran and
no attributes were set. -/
structure SetMemberState where
  fields : Option (PyVal × PyVal × PyVal)

/-- Model of `SetMember.__init__`: when `member_data` is truthy, read `id`,
`description` and `link` with `.get` (an `AttributeError` when
`member_data` is not a dict, e.g. a string). -/
def set_member_make (member_data : PyVal) : Except PyErr SetMemberState :=
  if py_truthy member_data then
    match py_get member_data "id" (.str "") with
    | .error e => .error e
    | .ok i =>
      match py_get member_data "description" (.str "") with
      | .error e => .error e
      | .ok d =>
        match py_get member_data "link" (.str "") with
        | .error e => .error e
        | .ok l => .ok ⟨some (i, d, l)⟩
  else .ok ⟨none⟩

/-- A constructed `Set` with its members attached. -/
structure AlmaSetState where
  name : PyVal
  set_type : SetContentType
  number_of_members : PyVal
  members_api : PyVal
  members : List SetMemberState

/-- Model of `Set._create_from_api_response` (with `_get_set_content_type`): name,
content-type enum from `content.desc`, declared member count from
`number_of_members.value`, pagination link from `number_of_members.link`. -/
def set_create (api_data : PyVal) :
    Except PyErr (PyVal × SetContentType × PyVal × PyVal) :=
  match py_get api_data "name" (.str "") with
  | .error e => .error e
  | .ok name =>
    match py_get api_data "content" (.dict .nil) with
    | .error e => .error e
    | .ok content_info =>
      match py_get content_info "desc" .pynone with
      | .error e => .error e
      | .ok desc =>
        match set_content_type_of desc with
        | .error e => .error e
        | .ok stype =>
          match py_get api_data "number_of_members" (.dict .nil) with
          | .error e => .error e
          | .ok member_info =>
            match py_get member_info "value" (.int 0) with
            | .error e => .error e
            | .ok n =>
              match py_get member_info "link" (.str "") with
              | .error e => .error e
              | .ok link => .ok (name, stype, n, link)

/-- Result of running a fuel-bounded embedding of a Python loop:
`diverge` means the fuel ran out with the loop still running (for every
fuel value, when proved so), `raise` models an uncaught exception. -/
inductive PyRes (α : Type) where
  | diverge
  | raise (e : PyErr)
  | ok (a : α)

/-- Observable calls `get_set` makes after the initial set fetch. -/
inductive SetEvent where
  | fetch_members (offset : Int) (limit : Int)
  | attach_members (count : Nat)

/-- The member loop `for new_member in new_members:
members.append(SetMember(member_data=new_member))`: left to right, aborting
at the first raising construction. -/
def map_members : List PyVal → Except PyErr (List SetMemberState)
  | [] => .ok []
  | v :: tl =>
    match set_member_make v with
    | .error e => .error e
    | .ok m =>
      match map_members tl with
      | .error e => .error e
      | .ok ms => .ok (m :: ms)

/-- The member-pagination loop of `AlmaAPIClient.get_set`
(`while len(members) < alma_set.number_of_members:`).  `fetch offset` is the
decoded `api_data` of the member-page response requested with parameters
`offset` and `limit = 100` (the hard-coded page size); each page's `member`
value (default `[]`) is measured with `len` (advancing `offset` by exactly
that much), iterated, and each element passed to `SetMember`.  There is no
wrapping of a bare dict and no guard besides the count comparison. -/
def get_set_loop (fetch : Int → PyVal) (declared : PyVal) :
    Nat → List SetMemberState → Int → List SetEvent →
    PyRes (List SetMemberState × List SetEvent)
  | 0, members, _, trace =>
    match py_lt_int members.length declared with
    | .error e => .raise e
    | .ok cond => if cond then .diverge else .ok (members, trace)
  | fuel + 1, members, offset, trace =>
    match py_lt_int members.length declared with
    | .error e => .raise e
    | .ok cond =>
      if cond then
        match py_get (fetch offset) "member" (.list .nil) with
        | .error e => .raise e
        | .ok new_members =>
          match py_len new_members with
          | .error e => .raise e
          | .ok n =>
            match py_iter new_members with
            | .error e => .raise e
            | .ok items =>
              match map_members items with
              | .error e => .raise e
              | .ok news =>
                get_set_loop fetch declared fuel (members ++ news) (offset + n)
                  (trace ++ [.fetch_members offset 100])
      else .ok (members, trace)

/-- Model of `AlmaAPIClient.get_set`: fetch the set description; on a non-success
status raise `APIError(response, "Error retrieving set")`.  Otherwise build
the `Set`, run the pagination loop when `get_all_members` is set (offset
starts at 0, limit 100), and attach all collected members through a single
`add_members` call after the loop. -/
def get_set (parse_json : String → Option PyVal)
    (parse_xml_dict : String → Except PyErr PyVal)
    (set_resp : Resp) (fetch : Int → PyVal) (get_all_members : Bool) (fuel : Nat) :
    PyRes (AlmaSetState × List SetEvent) :=
  if resp_ok set_resp then
    match set_create (api_data_of parse_json set_resp) with
    | .error e => .raise e
    | .ok (name, stype, n, link) =>
      match (if get_all_members then get_set_loop fetch n fuel [] 0 [] else .ok ([], [])) with
      | .diverge => .diverge
      | .raise e => .raise e
      | .ok (members, trace) =>
        .ok (⟨name, stype, n, link, members⟩, trace ++ [.attach_members members.length])
  else
    match api_error_init parse_json parse_xml_dict set_resp "Error retrieving set" with
    | .ok st => .raise (.apiError st)
    | .error e => .raise e

/-! ## Job polling (`AlmaAPIClient.wait_for_completion`) -/

/-- The fixed set of in-progress job statuses. -/
def in_progress_statuses : List String :=
  ["QUEUED", "PENDING", "INITIALIZING", "RUNNING", "FINALIZING"]

/-- Python `status in [...]` for the polled status value. -/
def status_in_progress : PyVal → Bool
  | .str s => in_progress_statuses.contains s
  | _ => false

/-- Model of `api_data.get("status", {}).get("value", "")`. -/
def job_status (api_data : PyVal) : Except PyErr PyVal :=
  match py_get api_data "status" (.dict .nil) with
  | .error e => .error e
  | .ok s => py_get s "value" (.str "")

/-- The polling loop of `wait_for_completion`.  The single `_call_api`
happens before the loop; the loop body only re-wraps that same response
(`APIResponse(api_response)`) and recomputes the status from it, so
`api_data` here is fixed for the whole loop. -/
def wait_loop (api_data : PyVal) : Nat → PyVal → PyRes Unit
  | 0, status => if status_in_progress status then .diverge else .ok ()
  | fuel + 1, status =>
    if status_in_progress status then
      match job_status api_data with
      | .error e => .raise e
      | .ok s' => wait_loop api_data fuel s'
    else .ok ()

/-- Model of `AlmaAPIClient.wait_for_completion` applied to the one response the
method ever fetches for the job-instance endpoint: read the status, loop
while it is in progress (sleeping `seconds_to_poll` between iterations),
then return the final `APIResponse` or raise
`APIError(response, "Error completing job.")`. -/
def wait_for_completion (parse_json : String → Option PyVal)
    (parse_xml_dict : String → Except PyErr PyVal)
    (r : Resp) (fuel : Nat) : PyRes PyVal :=
  let data := api_data_of parse_json r
  match job_status data with
  | .error e => .raise e
  | .ok s =>
    match wait_loop data fuel s with
    | .diverge => .diverge
    | .raise e => .raise e
    | .ok _ =>
      if resp_ok r then .ok (api_data_of parse_json r)
      else
        match api_error_init parse_json parse_xml_dict r "Error completing job." with
        | .ok st => .raise (.apiError st)
        | .error e => .raise e


/-! ## Derived forms and concrete fixtures used by the verification -/

/-- What `SetMember(member_data)` produces on a dict (it cannot raise
there): attributes set iff the dict is truthy (non-empty). -/
def mk_member_of_dict (es : PyDict) : SetMemberState :=
  if es.length ≠ 0 then
    ⟨some ((es.lookup "id").getD (.str ""), (es.lookup "description").getD (.str ""),
      (es.lookup "link").getD (.str ""))⟩
  else ⟨none⟩

/-- A member page whose `member` field is a proper list of member objects. -/
def page_val (ds : List PyDict) : PyVal :=
  .dict (pyd [("member", .list (pyl (ds.map PyVal.dict)))])

/-- A member endpoint backed by a finite member list: the page at `offset`
holds the next (at most) 100 members, and empty pages after exhaustion. -/
def drop_take_fetch (all : List PyDict) (off : Int) : PyVal :=
  page_val ((all.drop off.toNat).take 100)

/-- Scalar (neither a Python list nor a dict). -/
def py_scalar : PyVal → Bool
  | .list _ => false
  | .dict _ => false
  | _ => true

/-- JSON decoder stub returning a fixed object (what decoding a body
holding that object yields). -/
def pj_foo : String → Option PyVal :=
  fun _ => some (.dict (pyd [("foo", .str "bar")]))

/-- JSON decoder stub that fails on every body (`JSONDecodeError`). -/
def pj_fail : String → Option PyVal := fun _ => none

/-- XML-to-dict parser stub failing on the empty body, as
`xmltodict.parse(b"")` does (`ExpatError: no element found`). -/
def px_empty_fails : String → Except PyErr PyVal :=
  fun s => if s = "" then .error .expatError else .ok (.dict .nil)

/-- XML-to-dict parser stub for a vendor error document: the parse of
`<web_service_result><errorList><error><errorMessage>Set not found: Set ID
abc</errorMessage></error></errorList></web_service_result>`. -/
def px_err_doc : String → Except PyErr PyVal :=
  fun _ => .ok (.dict (pyd [("web_service_result", .dict (pyd [("errorList",
    .dict (pyd [("error", .dict (pyd [("errorMessage",
      .str "Set not found: Set ID abc")]))]))]))]))

def resp_json_200 : Resp :=
  ⟨200, [("Content-Type", "application/json;charset=UTF-8")], "irrelevant"⟩

def resp_xml_200 : Resp :=
  ⟨200, [("Content-Type", "application/xml;charset=UTF-8")], "<x />"⟩

def resp_500_json : Resp :=
  ⟨500, [("Content-Type", "application/json;charset=UTF-8")], "irrelevant"⟩

/-- A failed response declaring XML content with an empty body. -/
def resp_500_xml : Resp :=
  ⟨500, [("Content-Type", "application/xml;charset=UTF-8")], ""⟩

/-- JSON decoder stub for a vendor error body with a single error object. -/
def pj_err_single : String → Option PyVal :=
  fun _ => some (.dict (pyd [("errorList", .dict (pyd [("error",
    .dict (pyd [("errorMessage", .str "Set not found: Set ID abc")]))]))]))

/-- A bib wrapper as fetched from the API: a non-slot metadata child
(`mms_id`), one slot child (`suppress_from_publishing`), and a canonical
MARCXML `record` subtree. -/
def wrapper_bib_mms : XTree :=
  .elem "bib" [] (xl [
    .elem "mms_id" [] (xl [.text "99"]),
    .elem "suppress_from_publishing" [] (xl [.text "true"]),
    .elem "record" [] (xl [
      .elem "leader" [] (xl [.text "00000nam"]),
      .elem "controlfield" [("tag", "001")] (xl [.text "99"])])])

/-- A wrapper whose `record` child is present but empty (`<record/>`). -/
def wrapper_empty_record : XTree :=
  .elem "bib" [] (xl [.elem "record" [] .nil])

/-- A wrapper with no `record` child at all. -/
def wrapper_no_record : XTree :=
  .elem "bib" [] (xl [.elem "mms_id" [] (xl [.text "99"])])

/-- The parametric wrapper family used for the MARC round-trip analysis:
a non-slot text attribute `mms_id`, the slot text attribute
`suppress_from_publishing`, and a pymarc-canonical `record` subtree. -/
def wrapper_family (m sv : String) (marc : MarcRecord) : XTree :=
  .elem "bib" [] (xl [
    .elem "mms_id" [] (text_children m),
    .elem "suppress_from_publishing" [] (text_children sv),
    record_to_xml_node marc])

/-- What `alma_xml` actually produces for such a wrapper: exactly the
`__slots__` attributes in slot order (unset ones as empty elements), then
the re-encoded record — the `mms_id` child is gone. -/
def expected_out (sv : String) (marc : MarcRecord) : XTree :=
  .elem "bib" [] (xl [
    .elem "brief_level" [] .nil,
    .elem "cataloging_level" [] .nil,
    .elem "record_format" [] .nil,
    .elem "suppress_from_publishing" [] (.cons (.text sv) .nil),
    record_to_xml_node marc])

/-- Decoded set description declaring `n` members. -/
def set_api_data (n : Int) : PyVal :=
  .dict (pyd [
    ("name", .str "Test Set"),
    ("content", .dict (pyd [("desc", .str "Physical items")])),
    ("number_of_members", .dict (pyd [("value", .int n), ("link", .str "https://m")]))])

def member_dict (i : String) : PyDict := pyd [("id", .str i)]

def c3_p1 : List PyDict := List.replicate 100 (member_dict "a")
def c3_p2 : List PyDict := List.replicate 100 (member_dict "b")
def c3_p3 : List PyDict := List.replicate 50 (member_dict "c")

def c3_fetch (off : Int) : PyVal :=
  if off = 0 then page_val c3_p1
  else if off = 100 then page_val c3_p2
  else page_val c3_p3

/-- A member endpoint whose single page carries one bare member object
(the shape the vendor actually returns for a one-member set). -/
def single_member_fetch : Int → PyVal :=
  fun _ => .dict (pyd [("member",
    .dict (pyd [("id", .str "x"), ("description", .str "d"), ("link", .str "l")]))])

/-- Job-instance payload reporting an in-progress status. -/
def running_job_data : PyVal :=
  .dict (pyd [("status", .dict (pyd [("value", .str "RUNNING")]))])

/-- JSON decoder stub for the job-instance endpoint body: the first (and
only) response the method decodes reports `RUNNING`. -/
def pj_running : String → Option PyVal := fun _ => some running_job_data

/-- Decoded set description declaring one member, for the single-member
page scenario. -/
def pj_set_1 : String → Option PyVal := fun _ => some (set_api_data 1)

/-- Decoded set description declaring 250 members. -/
def pj_set_250 : String → Option PyVal := fun _ => some (set_api_data 250)

/-- A single vendor error object. -/
def err_single : PyDict := pyd [("errorMessage", .str "Set not found: Set ID abc")]

/-- A second vendor error object (message absent). -/
def err_no_message : PyDict := pyd [("errorCode", .str "60107")]

/-- Error payload with `errorList.error` a single object. -/
def c6_payload_single : PyDict :=
  pyd [("errorList", .dict (pyd [("error", .dict err_single)]))]

/-- Error payload with `errorList.error` a list of objects. -/
def c6_payload_list : PyDict :=
  pyd [("errorList", .dict (pyd [("error", .list (pyl [.dict err_single, .dict err_no_message]))]))]

/-- The concrete MARC record used in witnesses. -/
def marc_99 : MarcRecord := ⟨"00000nam", [.control "001" "99"]⟩

/-! ## Helper lemmas -/

theorem pyl_toList (vs : List PyVal) : (pyl vs).toList = vs := by
  induction vs with
  | nil => rfl
  | cons v tl ih => simp [pyl, PyList.toList] at ih ⊢; exact ih

theorem pyd_toList (es : List (String × PyVal)) : (pyd es).toList = es := by
  induction es with
  | nil => rfl
  | cons kv tl ih => simp [pyd, PyDict.toList] at ih ⊢; exact ih

theorem pyl_length (vs : List PyVal) : (pyl vs).length = vs.length := by
  simp [PyList.length, pyl_toList]

theorem xl_nil : xl [] = .nil := rfl

theorem xl_cons (t : XTree) (ts : List XTree) : xl (t :: ts) = .cons t (xl ts) := rfl

theorem xl_append (ts us : List XTree) : (xl ts).append (xl us) = xl (ts ++ us) := by
  induction ts with
  | nil => rfl
  | cons t tl ih => simp [xl, XList.append, ih]

theorem set_member_make_dict (es : PyDict) :
    set_member_make (.dict es) = .ok (mk_member_of_dict es) := by
  by_cases h : es.length = 0
  · simp [set_member_make, py_truthy, h, mk_member_of_dict]
  · simp [set_member_make, py_truthy, h, mk_member_of_dict, py_get]

theorem map_members_dicts (ds : List PyDict) :
    map_members (ds.map PyVal.dict) = .ok (ds.map mk_member_of_dict) := by
  induction ds with
  | nil => rfl
  | cons d tl ih =>
    simp [map_members, set_member_make_dict, ih]

theorem map_error_entries_dicts (ds : List PyDict) :
    map_error_entries (ds.map PyVal.dict) =
      .ok (ds.map (fun es => (es.lookup "errorMessage").getD (.str ""))) := by
  induction ds with
  | nil => rfl
  | cons d tl ih => simp [map_error_entries, py_get, ih]

theorem find_child_shape : ∀ (cs : XList) (name : String) (t : XTree),
    find_child cs name = some t → ∃ a ks, t = .elem name a ks
  | .nil, _, _, h => absurd h (by simp [find_child])
  | .cons (.text _) tl, name, t, h =>
    find_child_shape tl name t (by simpa [find_child] using h)
  | .cons (.elem n a ks) tl, name, t, h => by
    by_cases hn : n = name
    · subst hn
      simp [find_child] at h
      exact ⟨a, ks, h.symm⟩
    · exact find_child_shape tl name t (by simpa [find_child, hn] using h)

theorem deep_text_text_children (v : String) : deep_text_list (text_children v) = v := by
  by_cases h : v = ""
  · simp [text_children, h, deep_text_list]
  · simp [text_children, h, deep_text_list, deep_text]

theorem subfields_of_encode (sfs : List (String × String)) :
    subfields_of (xl (sfs.map (fun cv => .elem "subfield" [("code", cv.1)] (text_children cv.2)))) =
      sfs := by
  induction sfs with
  | nil => rfl
  | cons cv tl ih =>
    simp [xl, subfields_of, attr_get, deep_text_text_children, ih]

theorem marc_walk_encode (l0 : String) (acc : List MarcField) (fs : List MarcField) :
    marc_walk l0 acc (xl (fs.map field_to_xml)) = (l0, acc ++ fs) := by
  induction fs generalizing acc with
  | nil => simp [xl, marc_walk]
  | cons f tl ih =>
    cases f with
    | control t v =>
      simp [xl, field_to_xml, marc_walk, attr_get, deep_text_text_children, ih]
    | data t i1 i2 sfs =>
      simp [xl, field_to_xml, marc_walk, attr_get, deep_text_text_children,
        subfields_of_encode, ih]

theorem parse_record_node (m : MarcRecord) :
    parse_xml_to_array (record_to_xml_node m) = [m] := by
  have h := marc_walk_encode m.leader [] m.fields
  simp [parse_xml_to_array, record_to_xml_node, collect_records, xl, marc_of_children,
    marc_walk, deep_text_text_children, h]

theorem count_elems_fields (fs : List MarcField) :
    count_elems (xl (fs.map field_to_xml)) = fs.length := by
  induction fs with
  | nil => rfl
  | cons f tl ih =>
    cases f <;> simp [xl, field_to_xml, count_elems, ih] <;> omega

theorem count_record_node (m : MarcRecord) :
    elem_child_count (record_to_xml_node m) = 1 + m.fields.length := by
  have h := count_elems_fields m.fields
  simp [record_to_xml_node, elem_child_count, xl, count_elems, h]

theorem get_set_loop_exit (fetch : Int → PyVal) (declared : PyVal) (fuel : Nat)
    (members : List SetMemberState) (offset : Int) (trace : List SetEvent)
    (hlt : py_lt_int members.length declared = .ok false) :
    get_set_loop fetch declared fuel members offset trace = .ok (members, trace) := by
  cases fuel <;> simp [get_set_loop, hlt]

theorem get_set_loop_step (fetch : Int → PyVal) (declared : PyVal) (fuel : Nat)
    (members : List SetMemberState) (offset : Int) (trace : List SetEvent)
    (ds : List PyDict)
    (hlt : py_lt_int members.length declared = .ok true)
    (hf : fetch offset = page_val ds) :
    get_set_loop fetch declared (fuel + 1) members offset trace =
      get_set_loop fetch declared fuel (members ++ ds.map mk_member_of_dict)
        (offset + ds.length) (trace ++ [.fetch_members offset 100]) := by
  simp [get_set_loop, hlt, hf, page_val, py_get, pyd, PyDict.lookup, py_len, pyl_length,
    py_iter, pyl_toList, map_members_dicts]

theorem wait_loop_in_progress (api_data : PyVal) (s : PyVal)
    (hs : job_status api_data = .ok s) (hp : status_in_progress s = true) :
    ∀ fuel, wait_loop api_data fuel s = .diverge := by
  intro fuel
  induction fuel with
  | zero => simp [wait_loop, hp]
  | succ n ih => simp [wait_loop, hp, hs, ih]

theorem api_error_fields (pj : String → Option PyVal)
    (px : String → Except PyErr PyVal) (r : Resp) (msg : String) (st : APIErrorData)
    (h : api_error_init pj px r msg = .ok st) :
    st.message = msg ∧ st.status_code = r.status_code := by
  simp only [api_error_init] at h
  split at h
  · split at h
    · exact Except.noConfusion h
    · split at h
      · split at h
        · exact Except.noConfusion h
        · split at h
          · exact Except.noConfusion h
          · cases h; exact ⟨rfl, rfl⟩
      · split at h
        · exact Except.noConfusion h
        · split at h
          · exact Except.noConfusion h
          · cases h; exact ⟨rfl, rfl⟩
      · exact Except.noConfusion h
  · cases h; exact ⟨rfl, rfl⟩

theorem drop_take_loop_diverge (all : List PyDict) (d : Int)
    (hd : (all.length : Int) < d) :
    ∀ (fuel : Nat) (members : List SetMemberState) (offset : Int) (trace : List SetEvent),
      offset = (members.length : Int) → members.length ≤ all.length →
      get_set_loop (drop_take_fetch all) (.int d) fuel members offset trace = .diverge := by
  intro fuel
  induction fuel with
  | zero =>
    intro members offset trace h1 h2
    have hlt : py_lt_int members.length (.int d) = .ok true := by
      simp only [py_lt_int, Except.ok.injEq, decide_eq_true_eq]
      omega
    simp [get_set_loop, hlt]
  | succ n ih =>
    intro members offset trace h1 h2
    have hlt : py_lt_int members.length (.int d) = .ok true := by
      simp only [py_lt_int, Except.ok.injEq, decide_eq_true_eq]
      omega
    have hf : drop_take_fetch all offset = page_val ((all.drop offset.toNat).take 100) := rfl
    rw [get_set_loop_step _ _ n _ _ _ _ hlt hf]
    have hlen : ((all.drop offset.toNat).take 100).length = min 100 (all.length - offset.toNat) := by
      simp
    have htn : offset.toNat = members.length := by omega
    have hmin := Nat.min_le_right 100 (all.length - offset.toNat)
    apply ih
    · simp only [List.length_append, List.length_map, hlen]
      omega
    · simp only [List.length_append, List.length_map, hlen]
      omega

theorem child_text_text_children (v : String) : child_text (text_children v) = v := by
  by_cases h : v = ""
  · simp [text_children, h, child_text]
  · simp [text_children, h, child_text]

theorem x2d_entries_text_children (v : String) : x2d_entries (text_children v) = [] := by
  by_cases h : v = "" <;> simp [text_children, h, x2d_entries, x2d_entry]

theorem py_strip_empty : py_strip "" = "" := rfl

theorem mk_elem_val_text (v : String) (h1 : py_strip v = v) (h2 : v ≠ "") :
    mk_elem_val [] [] v = .str v := by
  simp [mk_elem_val, group_entries, h1, h2]

/-! ## Claims -/

/-- C5: for every raw transport response, envelope construction never
raises (`api_data_of` is a total function); when the `Content-Type` header
regex yields subtype `json` and the body parses, the decoded data is
exactly the parsed JSON structure; on a JSON parse failure (including an
empty body) it is the empty mapping; for every non-JSON content kind
(XML or unknown alike) it is the single-entry mapping from `"content"` to
the raw body bytes. -/
theorem claim_C5_envelope_decoding (pj : String → Option PyVal) (r : Resp) :
    (∀ v, content_type r.headers = "json" → pj r.body = some v → api_data_of pj r = v) ∧
    (content_type r.headers = "json" → pj r.body = none → api_data_of pj r = .dict .nil) ∧
    (content_type r.headers ≠ "json" →
      api_data_of pj r = .dict (pyd [("content", .bytes r.body)])) := by
  refine ⟨fun v hct hp => ?_, fun hct hp => ?_, fun hct => ?_⟩ <;>
    simp [api_data_of, hct, *]

/-- C5 witness: a JSON 200 response decodes to its parsed body; a failing
JSON parse yields the empty mapping; an XML response keeps raw bytes under
`"content"`. -/
theorem claim_C5_witness :
    api_data_of pj_foo resp_json_200 = .dict (pyd [("foo", .str "bar")]) ∧
    api_data_of pj_fail resp_json_200 = .dict .nil ∧
    api_data_of pj_foo resp_xml_200 = .dict (pyd [("content", .bytes "<x />")]) :=
  ⟨(claim_C5_envelope_decoding pj_foo resp_json_200).1 _ rfl rfl,
   (claim_C5_envelope_decoding pj_fail resp_json_200).2.1 rfl rfl,
   (claim_C5_envelope_decoding pj_foo resp_xml_200).2.2 (by decide)⟩

/-- C6 counterexample: the claim says `error_messages` always returns a
sequence, but on an envelope whose decoded data maps `errorList` to a
non-mapping (reachable from the JSON error body consisting of that object)
the chained `.get` raises `AttributeError` instead. -/
theorem claim_C6_counterexample :
    error_messages (.dict (pyd [("errorList", .str "boom")])) = .error .attributeError := rfl

/-- C6 amended: provided decoded data is a mapping whose `errorList` entry
(defaulted to an empty mapping) is itself a mapping, `error_messages`
returns: for a sequence of mappings under `error`, the `errorMessage` of
each entry in original order with `""` when absent and no deduplication;
for a single mapping, the one-element sequence of its `errorMessage`; and
an empty sequence for any other (scalar or missing) `error` value.  When
`errorList` or a sequence entry is not a mapping, `.get` raises instead. -/
theorem claim_C6_error_messages_amended (api_data el : PyDict)
    (h : (api_data.lookup "errorList").getD (.dict .nil) = .dict el) :
    (∀ ds : List PyDict, (el.lookup "error").getD .pynone = .list (pyl (ds.map PyVal.dict)) →
        error_messages (.dict api_data) =
          .ok (ds.map (fun es => (es.lookup "errorMessage").getD (.str "")))) ∧
    (∀ es : PyDict, (el.lookup "error").getD .pynone = .dict es →
        error_messages (.dict api_data) = .ok [(es.lookup "errorMessage").getD (.str "")]) ∧
    (∀ v, (el.lookup "error").getD .pynone = v → py_scalar v = true →
        error_messages (.dict api_data) = .ok []) := by
  refine ⟨fun ds he => ?_, fun es he => ?_, fun v hv hs => ?_⟩
  · simp [error_messages, py_get, h, he, pyl_toList, map_error_entries_dicts]
  · simp [error_messages, py_get, h, he]
  · subst hv
    rcases hval : (el.lookup "error").getD .pynone with s | b | n | b | _ | items | es <;>
      simp [hval, py_scalar] at hs ⊢ <;>
      simp [error_messages, py_get, h, hval]

/-- C6 witness: the spec's own examples — a single-error payload yields a
one-element sequence, and a two-error list payload yields both messages in
order, with `""` for the entry lacking `errorMessage`. -/
theorem claim_C6_witness :
    error_messages (.dict c6_payload_single) = .ok [.str "Set not found: Set ID abc"] ∧
    error_messages (.dict c6_payload_list) =
      .ok [.str "Set not found: Set ID abc", .str ""] := by
  constructor
  · exact (claim_C6_error_messages_amended c6_payload_single
      (pyd [("error", .dict err_single)]) rfl).2.1 err_single rfl
  · exact (claim_C6_error_messages_amended c6_payload_list
      (pyd [("error", .list (pyl [.dict err_single, .dict err_no_message]))]) rfl).1
      [err_single, err_no_message] rfl

/-- C10: constructing an `APIError` from a response whose `Content-Type`
declares XML but whose body the XML parser rejects (for example the empty
body) propagates the parse exception, while base envelope construction on
the same response does not raise and stores the raw bytes under
`"content"`. -/
theorem claim_C10_xml_parse_propagates (pj : String → Option PyVal)
    (px : String → Except PyErr PyVal) (r : Resp) (msg : String) (e : PyErr)
    (hct : content_type r.headers = "xml") (hp : px r.body = .error e) :
    api_error_init pj px r msg = .error e ∧
    api_data_of pj r = .dict (pyd [("content", .bytes r.body)]) := by
  have hb : api_data_of pj r = .dict (pyd [("content", .bytes r.body)]) := by
    simp [api_data_of, hct]
  refine ⟨?_, hb⟩
  simp [api_error_init, hct, hb, py_get, pyd, PyDict.lookup, hp]

/-- C10 witness: a 500 response with XML content type and empty body — the
parser fails with `ExpatError`, which escapes `APIError.__init__`. -/
theorem claim_C10_witness :
    api_error_init pj_fail px_empty_fails resp_500_xml "Error creating item." =
      .error .expatError ∧
    api_data_of pj_fail resp_500_xml = .dict (pyd [("content", .bytes "")]) :=
  claim_C10_xml_parse_propagates pj_fail px_empty_fails resp_500_xml
    "Error creating item." .expatError rfl rfl

/-- C7 counterexample: the claim says every Facade method raises an
`APIError` exactly when the response's success flag is false, but for a
failed response declaring XML content with an unparseable (empty) body,
`create_item` propagates the XML parser's `ExpatError` — not an
`APIError`. -/
theorem claim_C7_counterexample :
    resp_ok resp_500_xml = false ∧
    create_item pj_fail px_empty_fails resp_500_xml = .error .expatError := ⟨rfl, rfl⟩

/-- C7 amended: `create_item` returns the populated envelope exactly when
the success flag is true; when it is false it raises the `APIError` built
from the response — carrying the caller-supplied context message and the
response status code — provided error-envelope construction itself
succeeds; when that construction raises (the XML case of C10), the
underlying exception propagates instead. -/
theorem claim_C7_facade_amended (pj : String → Option PyVal)
    (px : String → Except PyErr PyVal) (r : Resp) :
    (resp_ok r = true → create_item pj px r = .ok (api_data_of pj r)) ∧
    (∀ st : APIErrorData, resp_ok r = false →
        api_error_init pj px r "Error creating item." = .ok st →
        create_item pj px r = .error (.apiError st) ∧
        st.message = "Error creating item." ∧ st.status_code = r.status_code) ∧
    (∀ e : PyErr, resp_ok r = false →
        api_error_init pj px r "Error creating item." = .error e →
        create_item pj px r = .error e) := by
  refine ⟨fun h => by simp [create_item, h],
          fun st h he => ⟨by simp [create_item, h, he],
            (api_error_fields pj px r _ st he).1, (api_error_fields pj px r _ st he).2⟩,
          fun e h he => by simp [create_item, h, he]⟩

/-- C7 witness: a status-500 response with a JSON error body raises an
`APIError` whose message is the context string `"Error creating item."`
and whose status code is 500; a 200 response returns the envelope. -/
theorem claim_C7_witness :
    create_item pj_err_single px_empty_fails resp_500_json =
      .error (.apiError ⟨.dict c6_payload_single, "Error creating item.", 500⟩) ∧
    create_item pj_foo px_empty_fails resp_json_200 =
      .ok (.dict (pyd [("foo", .str "bar")])) :=
  ⟨((claim_C7_facade_amended pj_err_single px_empty_fails resp_500_json).2.1
      ⟨.dict c6_payload_single, "Error creating item.", 500⟩ rfl rfl).1,
   (claim_C7_facade_amended pj_foo px_empty_fails resp_json_200).1 rfl⟩

/-- C2 counterexample: the claim says a present `record` element is
re-serialized and decoded, but for a wrapper holding the present-but-empty
`<record/>` the Python truthiness of `Element` (`len(children) != 0`) sends
the code down the `else` branch: the structured record is `None` and no
decoding happens. -/
theorem claim_C2_counterexample :
    wrapper_empty_record.find "record" = some (.elem "record" [] .nil) ∧
    get_pymarc_record_from_xml wrapper_empty_record = .ok none := ⟨rfl, rfl⟩

/-- C2 amended: for every wrapper, a missing `record` child yields a null
structured record without raising; so does a present `record` child with
no subelement children (the `Element` truthiness test); and when the
`record` child has at least one subelement, exactly that subtree is
re-serialized (without XML declaration) and decoded, yielding the decoder's
record — never the `IndexError` branch, since the decoder applied to a
`record` element always finds exactly one record. -/
theorem claim_C2_extraction_amended (w : XTree) :
    (w.find "record" = none → get_pymarc_record_from_xml w = .ok none) ∧
    (∀ rec, w.find "record" = some rec → elem_child_count rec = 0 →
        get_pymarc_record_from_xml w = .ok none) ∧
    (∀ rec, w.find "record" = some rec → elem_child_count rec ≠ 0 →
        ∃ a cs, rec = .elem "record" a cs ∧
          get_pymarc_record_from_xml w = .ok (some (marc_of_children cs))) := by
  refine ⟨fun h => by simp [get_pymarc_record_from_xml, h],
          fun rec h hc => by simp [get_pymarc_record_from_xml, h, hc],
          fun rec h hc => ?_⟩
  cases w with
  | text s => simp [XTree.find] at h
  | elem n a cs =>
    simp only [XTree.find] at h
    obtain ⟨a', ks, rfl⟩ := find_child_shape cs "record" rec h
    refine ⟨a', ks, rfl, ?_⟩
    simp [get_pymarc_record_from_xml, XTree.find, h, hc, parse_xml_to_array,
      collect_records]

/-- C2 witness: a record-less wrapper yields a null record; the bib wrapper
fixture decodes to its embedded record. -/
theorem claim_C2_witness :
    get_pymarc_record_from_xml wrapper_no_record = .ok none ∧
    get_pymarc_record_from_xml wrapper_bib_mms =
      .ok (some ⟨"00000nam", [.control "001" "99"]⟩) := by
  constructor
  · exact (claim_C2_extraction_amended wrapper_no_record).1 rfl
  · obtain ⟨a, cs, hrec, heq⟩ :=
      (claim_C2_extraction_amended wrapper_bib_mms).2.2
        (.elem "record" [] (xl [
          .elem "leader" [] (xl [.text "00000nam"]),
          .elem "controlfield" [("tag", "001")] (xl [.text "99"])])) rfl (by decide)
    injection hrec with hn ha hc
    subst ha hc
    exact heq

/-- C4 (code bug): the spec requires a single-member page's bare `member`
object to be detected and wrapped into a one-element sequence, but the
pagination step iterates whatever `member` holds: for a bare dict this
iterates its keys, and `SetMember("id")` raises `AttributeError`
(a string has no `.get`). -/
theorem claim_C4_single_member_page :
    get_set pj_set_1 px_empty_fails resp_json_200 single_member_fetch true 5 =
      .raise .attributeError := rfl

/-- C8 (code bug): `wait_for_completion` never re-calls the job-instance
endpoint inside its loop — the body only re-wraps the one response fetched
before the loop — so whenever the first response reports an in-progress
status (here `RUNNING`), the method sleeps and loops forever, for every
fuel bound, regardless of what the endpoint would report later. -/
theorem claim_C8_wait_never_repolls (px : String → Except PyErr PyVal) (fuel : Nat) :
    wait_for_completion pj_running px resp_json_200 fuel = .diverge := by
  have hs : job_status (api_data_of pj_running resp_json_200) = .ok (.str "RUNNING") := rfl
  have hw := wait_loop_in_progress _ _ hs rfl fuel
  simp [wait_for_completion, hs, hw]

/-- C9: when a set's declared member count strictly exceeds the total
number of members the member endpoint can ever supply (modelled by a
finite member list served in drop/take pages of 100), the pagination loop
comparing `len(members) < number_of_members` runs forever: it returns
"still running" for every fuel bound, with no max-iteration or short-page
guard to stop it. -/
theorem claim_C9_count_mismatch_diverges (all : List PyDict) (d : Int)
    (hd : (all.length : Int) < d) (fuel : Nat) :
    get_set_loop (drop_take_fetch all) (.int d) fuel [] 0 [] = .diverge :=
  drop_take_loop_diverge all d hd fuel [] 0 [] (by simp) (by simp)

/-- C9 witness: an endpoint with no members at all against a declared count
of 5 never terminates within 7 iterations (nor any other bound). -/
theorem claim_C9_witness :
    get_set_loop (drop_take_fetch []) (.int 5) 7 [] 0 [] = .diverge :=
  claim_C9_count_mismatch_diverges [] 5 (by decide) 7

/-- C3: for a set declaring 250 members whose endpoint returns pages of
100, 100 and 50 member objects, `get_set` makes exactly three member-page
calls with `limit` 100 at offsets 0, 100 and 200 (the offset advancing by
the number of members actually returned), collects all 250 members in page
order, and attaches them through a single `add_members` call after the
last page — no attach event precedes the fetches. -/
theorem claim_C3_set_pagination (pj : String → Option PyVal)
    (px : String → Except PyErr PyVal) (set_resp : Resp) (fetch : Int → PyVal)
    (name link : PyVal) (stype : SetContentType) (p1 p2 p3 : List PyDict)
    (hok : resp_ok set_resp = true)
    (hset : set_create (api_data_of pj set_resp) = .ok (name, stype, .int 250, link))
    (h1 : fetch 0 = page_val p1) (h2 : fetch 100 = page_val p2)
    (h3 : fetch 200 = page_val p3)
    (l1 : p1.length = 100) (l2 : p2.length = 100) (l3 : p3.length = 50) :
    get_set pj px set_resp fetch true 3 =
      .ok (⟨name, stype, .int 250, link, (p1 ++ p2 ++ p3).map mk_member_of_dict⟩,
        [.fetch_members 0 100, .fetch_members 100 100, .fetch_members 200 100,
         .attach_members 250]) := by
  have s1 : py_lt_int ([] : List SetMemberState).length (.int 250) = .ok true := by
    simp [py_lt_int]
  have e1 := get_set_loop_step fetch (.int 250) 2 [] 0 [] p1 s1 h1
  rw [l1] at e1
  norm_num at e1
  have s2 : py_lt_int (p1.map mk_member_of_dict).length (.int 250) = .ok true := by
    simp [py_lt_int, l1]
  have e2 := get_set_loop_step fetch (.int 250) 1 (p1.map mk_member_of_dict) 100
    [.fetch_members 0 100] p2 s2 h2
  rw [l2] at e2
  norm_num at e2
  have s3 : py_lt_int ((p1.map mk_member_of_dict) ++ (p2.map mk_member_of_dict)).length
      (.int 250) = .ok true := by
    simp [py_lt_int, l1, l2]
  have e3 := get_set_loop_step fetch (.int 250) 0
    ((p1.map mk_member_of_dict) ++ (p2.map mk_member_of_dict)) 200
    [.fetch_members 0 100, .fetch_members 100 100] p3 s3 h3
  rw [l3] at e3
  norm_num at e3
  have s4 : py_lt_int ((p1.map mk_member_of_dict) ++ ((p2.map mk_member_of_dict) ++
      (p3.map mk_member_of_dict))).length (.int 250) = .ok false := by
    simp [py_lt_int, l1, l2, l3]
  have e4 := get_set_loop_exit fetch (.int 250) 0
    ((p1.map mk_member_of_dict) ++ ((p2.map mk_member_of_dict) ++
      (p3.map mk_member_of_dict))) 250
    [.fetch_members 0 100, .fetch_members 100 100, .fetch_members 200 100] s4
  simp only [get_set, hok, if_true, hset, e1, e2, e3, e4]
  simp [l1, l2, l3]

/-- C3 witness: concrete pages of 100 `"a"`-members, 100 `"b"`-members and
50 `"c"`-members against the 250-member set description. -/
theorem claim_C3_witness :
    get_set pj_set_250 px_empty_fails resp_json_200 c3_fetch true 3 =
      .ok (⟨.str "Test Set", .ITEM, .int 250, .str "https://m",
        (c3_p1 ++ c3_p2 ++ c3_p3).map mk_member_of_dict⟩,
        [.fetch_members 0 100, .fetch_members 100 100, .fetch_members 200 100,
         .attach_members 250]) := by
  exact claim_C3_set_pagination pj_set_250 px_empty_fails resp_json_200 c3_fetch
    (.str "Test Set") (.str "https://m") .ITEM c3_p1 c3_p2 c3_p3
    rfl rfl rfl rfl rfl
    (by simp [c3_p1]) (by simp [c3_p2]) (by simp [c3_p3])

theorem alma_xml_eq (st : AlmaMARCRecordState) :
    alma_xml st = (alma_xml_tree st).map serializeXml := by
  cases h : alma_xml_tree st <;> simp [alma_xml, h, Except.map]

theorem bind_alma_xml (r : Except PyErr AlmaMARCRecordState) :
    r.bind alma_xml = (r.bind alma_xml_tree).map serializeXml := by
  cases r <;> simp [Except.bind, Except.map, alma_xml_eq]

/-- C1 counterexample: for the bib wrapper fixture — whose `record` subtree
is already in pymarc-canonical form and whose named attributes are not
mutated — the round-trip claim would force `alma_xml` to reproduce the
original wrapper bytes; instead the output drops the non-slot `mms_id`
child and adds empty elements for the unset slots, so the bytes differ. -/
theorem claim_C1_counterexample :
    (bib_record_create wrapper_bib_mms).bind alma_xml =
      .ok "<bib><brief_level /><cataloging_level /><record_format /><suppress_from_publishing>true</suppress_from_publishing><record><leader>00000nam</leader><controlfield tag=\"001\">99</controlfield></record></bib>" ∧
    "<bib><brief_level /><cataloging_level /><record_format /><suppress_from_publishing>true</suppress_from_publishing><record><leader>00000nam</leader><controlfield tag=\"001\">99</controlfield></record></bib>" ≠
      serializeXml wrapper_bib_mms :=
  ⟨rfl, by decide⟩


theorem group_three (vm vs vr : PyVal) :
    group_entries [("mms_id", vm), ("suppress_from_publishing", vs), ("record", vr)] =
      [("mms_id", vm), ("suppress_from_publishing", vs), ("record", vr)] := by
  simp [group_entries, group_ins]

theorem mk_elem_val_root (subs0 : List (String × PyVal)) (h : group_entries subs0 ≠ []) :
    mk_elem_val [] subs0 "" = .dict (pyd (group_entries subs0)) := by
  simp [mk_elem_val, py_strip_empty, List.isEmpty_iff, h]

theorem alma_xml_tree_bib (all : List (String × PyVal)) (v : String) (hv : v ≠ "")
    (marc : MarcRecord) :
    alma_xml_tree ⟨"bib", bib_slots, [("suppress_from_publishing", .str v)], all, some marc⟩ =
      .ok (expected_out v marc) := by
  simp [alma_xml_tree, bib_slots, get_slot, List.find?, alma_unparse, unp_val, unp_attrs,
    unp_text, unp_entries, pyd, PyDict.lookup, text_children, hv, XTree.push_child,
    XList.append, expected_out, xl,
    show starts_with_at "brief_level" = false from rfl,
    show starts_with_at "cataloging_level" = false from rfl,
    show starts_with_at "record_format" = false from rfl,
    show starts_with_at "suppress_from_publishing" = false from rfl]

/-- C1 amended: for a fetched bib wrapper (here: any wrapper with a
non-slot `mms_id` text attribute, a slot text attribute
`suppress_from_publishing`, and a pymarc-canonical `record` subtree),
serialization reproduces the original `record` subtree byte-for-byte and
the slot-declared attribute's original text — and after explicitly
mutating that attribute, its new value — but the output wrapper is NOT the
original wrapper with only those parts changed: it consists exactly of the
`__slots__` attributes in slot order (unset ones as empty elements)
followed by the record, and every other wrapper child (`mms_id`) is
dropped. -/
theorem claim_C1_roundtrip_amended (m sv sv' : String) (marc : MarcRecord)
    (hsv : py_strip sv = sv) (hsv0 : sv ≠ "") (hsv' : sv' ≠ "") :
    (bib_record_create (wrapper_family m sv marc)).bind alma_xml_tree =
      .ok (expected_out sv marc) ∧
    (bib_record_create (wrapper_family m sv marc)).bind alma_xml =
      .ok (serializeXml (expected_out sv marc)) ∧
    ((bib_record_create (wrapper_family m sv marc)).bind fun st =>
        (set_slot st "suppress_from_publishing" (.str sv')).bind alma_xml_tree) =
      .ok (expected_out sv' marc) := by
  have hcount : elem_child_count (record_to_xml_node marc) ≠ 0 := by
    rw [count_record_node]; omega
  have hfind : (wrapper_family m sv marc).find "record" = some (record_to_xml_node marc) := by
    simp [wrapper_family, XTree.find, xl, find_child, record_to_xml_node, text_children]
  have hget : get_pymarc_record_from_xml (wrapper_family m sv marc) = .ok (some marc) := by
    simp [get_pymarc_record_from_xml, hfind, hcount, parse_record_node]
  obtain ⟨vr, hvr⟩ : ∃ v, x2d_entry (record_to_xml_node marc) = [("record", v)] :=
    ⟨_, rfl⟩
  have hentries : x2d_entries (xl [.elem "mms_id" [] (text_children m),
      .elem "suppress_from_publishing" [] (text_children sv), record_to_xml_node marc]) =
      [("mms_id", mk_elem_val [] [] m), ("suppress_from_publishing", .str sv),
       ("record", vr)] := by
    simp only [xl, x2d_entries]
    rw [hvr]
    simp [x2d_entry, child_text_text_children, x2d_entries_text_children,
      mk_elem_val_text sv hsv hsv0]
  have hct0 : child_text (xl [.elem "mms_id" [] (text_children m),
      .elem "suppress_from_publishing" [] (text_children sv), record_to_xml_node marc]) = "" := by
    simp [xl, child_text, record_to_xml_node]
  have hroot : xmltodict_parse (wrapper_family m sv marc) =
      .dict (.cons "bib" (.dict (pyd [("mms_id", mk_elem_val [] [] m),
        ("suppress_from_publishing", .str sv), ("record", vr)])) .nil) := by
    simp only [wrapper_family, xmltodict_parse, hentries, hct0]
    rw [mk_elem_val_root _ (by rw [group_three]; simp), group_three]
    rfl
  have hset : set_attributes bib_slots (wrapper_family m sv marc) =
      .ok ("bib", [("suppress_from_publishing", .str sv)],
        [("mms_id", mk_elem_val [] [] m), ("suppress_from_publishing", .str sv),
         ("record", vr)]) := by
    simp [set_attributes, hroot, pyd, PyDict.toList, bib_slots]
  have hc : bib_record_create (wrapper_family m sv marc) =
      .ok ⟨"bib", bib_slots, [("suppress_from_publishing", .str sv)],
        [("mms_id", mk_elem_val [] [] m), ("suppress_from_publishing", .str sv),
         ("record", vr)], some marc⟩ := by
    simp [bib_record_create, create_from_wrapper, hget, hset]
  have h1 : (bib_record_create (wrapper_family m sv marc)).bind alma_xml_tree =
      .ok (expected_out sv marc) := by
    rw [hc]
    simpa [Except.bind] using alma_xml_tree_bib _ sv hsv0 marc
  refine ⟨h1, ?_, ?_⟩
  · rw [bind_alma_xml, h1]
    rfl
  · rw [hc]
    have hstep : set_slot ⟨"bib", bib_slots, [("suppress_from_publishing", .str sv)],
        [("mms_id", mk_elem_val [] [] m), ("suppress_from_publishing", .str sv),
         ("record", vr)], some marc⟩ "suppress_from_publishing" (.str sv') =
        .ok ⟨"bib", bib_slots, [("suppress_from_publishing", .str sv')],
          [("mms_id", mk_elem_val [] [] m), ("suppress_from_publishing", .str sv),
           ("record", vr)], some marc⟩ := by
      simp [set_slot, bib_slots, assoc_set]
    simpa [Except.bind, hstep] using alma_xml_tree_bib _ sv' hsv' marc

/-- C1 witness: the concrete bib wrapper with `mms_id` 99 and
`suppress_from_publishing` `"true"`, mutated to `"false"` before the
second serialization. -/
theorem claim_C1_witness :
    py_strip "true" = "true" ∧
    (bib_record_create (wrapper_family "99" "true" marc_99)).bind alma_xml =
      .ok (serializeXml (expected_out "true" marc_99)) ∧
    ((bib_record_create (wrapper_family "99" "true" marc_99)).bind fun st =>
        (set_slot st "suppress_from_publishing" (.str "false")).bind alma_xml_tree) =
      .ok (expected_out "false" marc_99) :=
  ⟨rfl,
   (claim_C1_roundtrip_amended "99" "true" "false" marc_99 rfl (by decide) (by decide)).2.1,
   (claim_C1_roundtrip_amended "99" "true" "false" marc_99 rfl (by decide) (by decide)).2.2⟩
